import Mathlib

/-!
Shallow embedding of the correlation and anomaly-detection core of the
CloudHack repository (`app/services/incident_analyzer.py` and
`app/services/metrics_collector.py`), together with theorems settling the
frozen claims about it.

Conventions of the embedding:
* Python floats (metric percentages, confidences) are modelled as `ℚ`.
* Timestamps are modelled as integers counting minutes; the 6-hour metric
  retention horizon is 360 minutes and the 30-minute recent-anomaly window
  is 30 minutes.
* Python dicts whose keys are inserted in a known order are modelled as
  association lists (`List (String × _)`); optional dict keys are `Option`
  fields, with `Option.getD` standing for `dict.get(key, default)`.
* Fallible upstream calls are modelled as `Except String` values passed in
  as inputs; the `try/except` blocks that swallow those failures are
  explicit `match`es on the `Except`.
-/

namespace CloudHack

/-- Severity enum from `app/models/incident_models.py`, ordered
`critical > high > medium > low > info`. -/
inductive Severity where
  | critical
  | high
  | medium
  | low
  | info
deriving DecidableEq, Repr

/-- A normalized observation produced by one of the four signal adapters in
`incident_analyzer.py` (dict literals with keys `type`, `severity`,
`resource`, `description`, `suggested_actions`). -/
structure Finding where
  type : String
  severity : Severity
  resource : String
  description : String
  suggested_actions : List String
deriving DecidableEq, Repr

/-- Result of `IncidentAnalyzer._determine_root_cause`: the dict
`{root_cause, confidence, severity}`. -/
structure RootCauseResult where
  root_cause : String
  confidence : ℚ
  severity : Severity
deriving DecidableEq, Repr

/-- Embedding of `IncidentAnalyzer._determine_root_cause`
(`incident_analyzer.py` lines 304-336): empty list gives the fixed
"No issues detected" result; otherwise the first critical finding (0.9),
else the first high finding (0.7), else the very first finding (0.5). -/
def determine_root_cause (findings : List Finding) : RootCauseResult :=
  match findings with
  | [] => ⟨"No issues detected", 1, Severity.info⟩
  | f0 :: rest =>
    match (f0 :: rest).filter (fun f => f.severity == Severity.critical) with
    | c :: _ => ⟨c.description, 9/10, Severity.critical⟩
    | [] =>
      match (f0 :: rest).filter (fun f => f.severity == Severity.high) with
      | h :: _ => ⟨h.description, 7/10, Severity.high⟩
      | [] => ⟨f0.description, 1/2, Severity.medium⟩

/-- One step of an action plan (`incident_analyzer.py` lines 345-377):
dict with keys `step`, `action`, `estimated_duration`, `critical` and,
for finding-derived steps only, `related_finding`. -/
structure PlanStep where
  step : Nat
  action : String
  estimated_duration : Nat
  critical : Bool
  related_finding : Option String
deriving DecidableEq, Repr

/-- Result of `IncidentAnalyzer._generate_action_plan`
(`incident_analyzer.py` lines 379-385). -/
structure ActionPlan where
  root_cause : String
  total_steps : Nat
  estimated_total_duration : Nat
  critical_steps : List PlanStep
  steps : List PlanStep
deriving DecidableEq, Repr

/-- The (action, finding-type) pairs contributed by the findings in
`_generate_action_plan`: for each of the first 3 findings, the first 2 of
its `suggested_actions` (the Python truthiness guard on
`finding.get("suggested_actions")` is equivalent to taking 2 of the empty
list). -/
def plan_action_items (findings : List Finding) : List (String × String) :=
  (findings.take 3).flatMap
    (fun f => (f.suggested_actions.take 2).map (fun a => (a, f.type)))

/-- Embedding of `IncidentAnalyzer._generate_action_plan`
(`incident_analyzer.py` lines 338-385).  Step numbers reproduce the
`len(steps) + 1` numbering of the source: the two fixed opening steps are
1 and 2, the finding-derived steps are 3, 4, ..., and the closing step is
the final `len(steps) + 1`. -/
def generate_action_plan (root_cause : String) (findings : List Finding) :
    ActionPlan :=
  let opening : List PlanStep :=
    [⟨1, "Acknowledge the incident and assess impact", 5, true, none⟩,
     ⟨2, "Gather additional context and metrics", 10, true, none⟩]
  let middle : List PlanStep :=
    (plan_action_items findings).enum.map
      (fun ia => ⟨3 + ia.1, ia.2.1, 15, false, some ia.2.2⟩)
  let steps := opening ++ middle ++
    [⟨2 + middle.length + 1,
      "Verify resolution and monitor system stability", 10, true, none⟩]
  { root_cause := root_cause
    total_steps := steps.length
    estimated_total_duration := (steps.map (fun s => s.estimated_duration)).sum
    critical_steps := steps.filter (fun s => s.critical)
    steps := steps }

/-- One entry of `analysis["analysis_steps"]` in
`IncidentAnalyzer.analyze_incident`. -/
structure AnalysisStep where
  step : String
  status : String
  findings : List Finding
deriving DecidableEq, Repr

/-- The analysis dict returned by `IncidentAnalyzer.analyze_incident`. -/
structure Analysis where
  symptoms : String
  timestamp : ℤ
  analysis_steps : List AnalysisStep
  findings : List Finding
  root_cause : String
  confidence : ℚ
  severity : Severity
  action_plan : ActionPlan
deriving DecidableEq, Repr

/-- The outcome of the four adapters' underlying upstream queries for one
`analyze_incident` call: `Except.error` models the upstream source raising
inside `_analyze_kubernetes_state` / `_analyze_metrics` / `_analyze_logs` /
`_analyze_traces`, `Except.ok` the findings list a successful adapter body
builds. -/
structure AdapterOutcomes where
  kubernetes_state : Except String (List Finding)
  metrics : Except String (List Finding)
  logs : Except String (List Finding)
  traces : Except String (List Finding)
deriving Repr

/-- The `try/except ... return empty` pattern shared by the four adapter
methods (`incident_analyzer.py` lines 157-159, 211-213, 251-253, 300-302):
a raising body degrades to the empty findings list. -/
def degrade (r : Except String (List Finding)) : List Finding :=
  match r with
  | Except.ok fs => fs
  | Except.error _ => []

/-- Embedding of `IncidentAnalyzer.analyze_incident`
(`incident_analyzer.py` lines 20-87): run the four adapters in the fixed
order kubernetes, metrics, logs, traces; record each step with status
"completed"; merge the findings in that order; then rank the root cause and
generate the action plan. -/
def analyze_incident (symptoms : String) (now : ℤ) (rs : AdapterOutcomes) :
    Analysis :=
  let k8s := degrade rs.kubernetes_state
  let mets := degrade rs.metrics
  let logs := degrade rs.logs
  let traces := degrade rs.traces
  let findings := k8s ++ mets ++ logs ++ traces
  let rc := determine_root_cause findings
  { symptoms := symptoms
    timestamp := now
    analysis_steps :=
      [⟨"kubernetes_analysis", "completed", k8s⟩,
       ⟨"metrics_analysis", "completed", mets⟩,
       ⟨"logs_analysis", "completed", logs⟩,
       ⟨"traces_analysis", "completed", traces⟩]
    findings := findings
    root_cause := rc.root_cause
    confidence := rc.confidence
    severity := rc.severity
    action_plan := generate_action_plan rc.root_cause findings }

/-- Cluster-level metrics dict built by
`MetricsCollector._collect_cluster_metrics`; every key is optional because
each sub-query may fail and then simply not set its key. -/
structure ClusterMetrics where
  cpu_usage_percent : Option ℚ
  memory_usage_percent : Option ℚ
  total_pods : Option Nat
  total_nodes : Option Nat
  ready_nodes : Option Nat
deriving DecidableEq, Repr

/-- The empty cluster-metrics dict (`{}`), the default used by
`self._collected_metrics.get("cluster", {}).get("metrics", {})`. -/
def ClusterMetrics.empty : ClusterMetrics := ⟨none, none, none, none, none⟩

/-- Per-node metrics dict built by `MetricsCollector._collect_node_metrics`. -/
structure NodeMetrics where
  cpu_usage_percent : Option ℚ
  memory_usage_percent : Option ℚ
  disk_usage_percent : Option ℚ
deriving DecidableEq, Repr

/-- Per-pod metrics dict built by `MetricsCollector._collect_pod_metrics`. -/
structure PodMetrics where
  pod : String
  cpu_usage_seconds : Option ℚ
  memory_usage_bytes : Option ℚ
deriving DecidableEq, Repr

/-- One anomaly record appended by `MetricsCollector._detect_anomalies`
(`metrics_collector.py` lines 220-262).  The cluster-level anomalies carry
no `resource` key, the node-level ones do; severities are the string
literals of the source. -/
structure Anomaly where
  type : String
  severity : String
  metric : String
  resource : Option String
  value : ℚ
  threshold : ℚ
  timestamp : ℤ
deriving DecidableEq, Repr

/-- The anomaly record appended at `metrics_collector.py` lines 220-227
(cluster cpu% above 80). -/
def cluster_cpu_anomaly (cluster : ClusterMetrics) (now : ℤ) : Anomaly :=
  { type := "high_cluster_cpu", severity := "high",
    metric := "cluster_cpu_usage", resource := none,
    value := cluster.cpu_usage_percent.getD 0, threshold := 80,
    timestamp := now }

/-- The anomaly record appended at `metrics_collector.py` lines 230-237
(cluster memory% above 85). -/
def cluster_memory_anomaly (cluster : ClusterMetrics) (now : ℤ) : Anomaly :=
  { type := "high_cluster_memory", severity := "high",
    metric := "cluster_memory_usage", resource := none,
    value := cluster.memory_usage_percent.getD 0, threshold := 85,
    timestamp := now }

/-- The anomaly record appended at `metrics_collector.py` lines 243-251
(node cpu% above 90). -/
def node_cpu_anomaly (entry : String × NodeMetrics) (now : ℤ) : Anomaly :=
  { type := "high_node_cpu", severity := "critical",
    metric := "node_cpu_usage", resource := some ("node/" ++ entry.1),
    value := entry.2.cpu_usage_percent.getD 0, threshold := 90,
    timestamp := now }

/-- The anomaly record appended at `metrics_collector.py` lines 253-262
(node memory% above 95). -/
def node_memory_anomaly (entry : String × NodeMetrics) (now : ℤ) : Anomaly :=
  { type := "high_node_memory", severity := "critical",
    metric := "node_memory_usage", resource := some ("node/" ++ entry.1),
    value := entry.2.memory_usage_percent.getD 0, threshold := 95,
    timestamp := now }

/-- The anomalies contributed by one entry of the node-metrics dict in
`_detect_anomalies` (`metrics_collector.py` lines 241-262): cpu% > 90 gives
a critical `high_node_cpu` anomaly, memory% > 95 a critical
`high_node_memory` anomaly. -/
def node_anomalies (now : ℤ) (entry : String × NodeMetrics) : List Anomaly :=
  (if entry.2.cpu_usage_percent.getD 0 > 90 then [node_cpu_anomaly entry now]
   else []) ++
  (if entry.2.memory_usage_percent.getD 0 > 95 then [node_memory_anomaly entry now]
   else [])

/-- Embedding of the anomaly list built by
`MetricsCollector._detect_anomalies` (`metrics_collector.py` lines 211-262)
from the newest collected sample: cluster cpu% > 80 (high, threshold 80),
cluster memory% > 85 (high, threshold 85), then per node cpu% > 90 and
memory% > 95 (critical).  A pure function of the sample: no state, hence no
hysteresis. -/
def detect_anomalies (cluster : ClusterMetrics)
    (nodes : List (String × NodeMetrics)) (now : ℤ) : List Anomaly :=
  (if cluster.cpu_usage_percent.getD 0 > 80 then [cluster_cpu_anomaly cluster now]
   else []) ++
  (if cluster.memory_usage_percent.getD 0 > 85 then
    [cluster_memory_anomaly cluster now]
   else []) ++
  nodes.flatMap (node_anomalies now)

/-- Embedding of the anomaly-log update in `_detect_anomalies`
(`metrics_collector.py` lines 264-269): `self._anomalies.extend(anomalies)`
followed by `self._anomalies = self._anomalies[-100:]` when the length
exceeds 100. -/
def append_anomalies (log new : List Anomaly) : List Anomaly :=
  let l := log ++ new
  if l.length > 100 then l.drop (l.length - 100) else l

/-- One stored value of the `self._collected_metrics` dict: the inner dict
`{"timestamp": ..., "metrics": ...}`. -/
structure TimedEntry (α : Type) where
  timestamp : ℤ
  metrics : α
deriving DecidableEq, Repr

/-- The `self._collected_metrics` dict of `MetricsCollector`: at most the
three keys "cluster", "nodes", "pods", each holding a timestamped metrics
payload; `none` models an absent key. -/
structure CollectedMetrics where
  cluster : Option (TimedEntry ClusterMetrics)
  nodes : Option (TimedEntry (List (String × NodeMetrics)))
  pods : Option (TimedEntry (List (String × PodMetrics)))
deriving DecidableEq, Repr

/-- The timestamps of the entries present in the collected-metrics dict. -/
def CollectedMetrics.timestamps (cm : CollectedMetrics) : List ℤ :=
  (cm.cluster.map (fun e => e.timestamp)).toList ++
  (cm.nodes.map (fun e => e.timestamp)).toList ++
  (cm.pods.map (fun e => e.timestamp)).toList

/-- `del self._collected_metrics[key]` when the entry's timestamp is older
than the cutoff, applied to one optional entry
(`metrics_collector.py` lines 286-288). -/
def keep_fresh {α : Type} (now : ℤ) (o : Option (TimedEntry α)) :
    Option (TimedEntry α) :=
  match o with
  | some e => if e.timestamp < now - 360 then none else some e
  | none => none

/-- Embedding of `MetricsCollector._clean_old_metrics`
(`metrics_collector.py` lines 281-291): drop every stored entry whose
timestamp is older than 6 hours (360 minutes) before `now`. -/
def clean_old_metrics (cm : CollectedMetrics) (now : ℤ) : CollectedMetrics :=
  { cluster := keep_fresh now cm.cluster
    nodes := keep_fresh now cm.nodes
    pods := keep_fresh now cm.pods }

/-- The mutable data of `MetricsCollector` that the sampling ticks and the
summary/anomaly queries touch: `self._collected_metrics` and
`self._anomalies`. -/
structure CollectorData where
  collected_metrics : CollectedMetrics
  anomalies : List Anomaly
deriving DecidableEq, Repr

/-- The fresh collector data set up by `MetricsCollector.__init__`:
empty metrics dict, empty anomaly log. -/
def CollectorData.init : CollectorData := ⟨⟨none, none, none⟩, []⟩

/-- What one sampling tick measured: the results of the cluster-, node- and
pod-level queries of `_collect_all_metrics` (each possibly degraded to an
empty dict by its own `try/except`). -/
structure TickInput where
  cluster : ClusterMetrics
  nodes : List (String × NodeMetrics)
  pods : List (String × PodMetrics)
deriving Repr

/-- Embedding of `MetricsCollector._collect_all_metrics`
(`metrics_collector.py` lines 50-83): store the three freshly measured
sections under the shared timestamp `now`, run `_detect_anomalies` on them
(appending to the capped anomaly log), then `_clean_old_metrics`. -/
def collect_all_metrics (st : CollectorData) (now : ℤ) (inp : TickInput) :
    CollectorData :=
  let stored : CollectedMetrics :=
    { cluster := some ⟨now, inp.cluster⟩
      nodes := some ⟨now, inp.nodes⟩
      pods := some ⟨now, inp.pods⟩ }
  { collected_metrics := clean_old_metrics stored now
    anomalies :=
      append_anomalies st.anomalies (detect_anomalies inp.cluster inp.nodes now) }

/-- One sampling tick as a fold step: the tick time and what it measured. -/
def tick (st : CollectorData) (p : ℤ × TickInput) : CollectorData :=
  collect_all_metrics st p.1 p.2

/-- The summary dict returned by `MetricsCollector.get_metrics_summary`. -/
structure MetricsSummary where
  timestamp : ℤ
  cluster_health_score : ℤ
  cluster_metrics : ClusterMetrics
  node_count : Nat
  pod_count : Nat
  recent_anomalies : Nat
  metrics_age_minutes : ℤ
deriving DecidableEq, Repr

/-- Embedding of `MetricsCollector._get_metrics_age_minutes`
(`metrics_collector.py` lines 326-342): 0 when nothing is stored, else the
age of the most recent stored timestamp. -/
def get_metrics_age_minutes (cm : CollectedMetrics) (now : ℤ) : ℤ :=
  match cm.timestamps.max? with
  | none => 0
  | some t => now - t

/-- Embedding of `MetricsCollector.get_metrics_summary`
(`metrics_collector.py` lines 293-320): health score starts at 100, loses
20 when cluster cpu% > 80, 20 when cluster memory% > 85, 30 when
`ready_nodes` (default 0) is below `total_nodes` (default 1), floored at 0;
the summary also reports the current time, the stored cluster metrics, the
node and pod counts, the anomalies of the last 30 minutes and the metrics
age. -/
def get_metrics_summary (st : CollectorData) (now : ℤ) : MetricsSummary :=
  let cluster_metrics :=
    (st.collected_metrics.cluster.map (fun e => e.metrics)).getD
      ClusterMetrics.empty
  let node_metrics :=
    (st.collected_metrics.nodes.map (fun e => e.metrics)).getD []
  let pod_metrics :=
    (st.collected_metrics.pods.map (fun e => e.metrics)).getD []
  let h1 : ℤ := 100
  let h2 := if cluster_metrics.cpu_usage_percent.getD 0 > 80 then h1 - 20 else h1
  let h3 :=
    if cluster_metrics.memory_usage_percent.getD 0 > 85 then h2 - 20 else h2
  let h4 :=
    if cluster_metrics.ready_nodes.getD 0 < cluster_metrics.total_nodes.getD 1
    then h3 - 30 else h3
  { timestamp := now
    cluster_health_score := max 0 h4
    cluster_metrics := cluster_metrics
    node_count := node_metrics.length
    pod_count := pod_metrics.length
    recent_anomalies :=
      (st.anomalies.filter (fun a => decide (a.timestamp > now - 30))).length
    metrics_age_minutes := get_metrics_age_minutes st.collected_metrics now }

/-- The lifecycle state of the sampler (`MetricsCollector.start` / `stop`,
`metrics_collector.py` lines 23-38), with the asyncio runtime made
explicit: `collection_task` is the task handle stored in
`self._collection_task`, `live_loop_tasks` the identifiers of all
`_collect_metrics_loop` tasks currently running (a task created by
`asyncio.create_task` keeps running when the handle is overwritten), and
`next_task_id` a supply of fresh task identifiers. -/
structure SamplerLifecycle where
  is_running : Bool
  collection_task : Option Nat
  live_loop_tasks : List Nat
  next_task_id : Nat
deriving DecidableEq, Repr

/-- The lifecycle state after `MetricsCollector.__init__`. -/
def SamplerLifecycle.init : SamplerLifecycle := ⟨false, none, [], 0⟩

/-- Embedding of `MetricsCollector.start` (`metrics_collector.py` lines
23-27): set the running flag and unconditionally create a new loop task,
overwriting the stored handle; any previously created loop task is not
cancelled and stays live. -/
def SamplerLifecycle.start (s : SamplerLifecycle) : SamplerLifecycle :=
  { is_running := true
    collection_task := some s.next_task_id
    live_loop_tasks := s.live_loop_tasks ++ [s.next_task_id]
    next_task_id := s.next_task_id + 1 }

/-- Embedding of `MetricsCollector.stop` (`metrics_collector.py` lines
29-38): clear the running flag and cancel (await) the stored task, which
removes exactly that task from the live ones; the handle itself is kept. -/
def SamplerLifecycle.stop (s : SamplerLifecycle) : SamplerLifecycle :=
  { is_running := false
    collection_task := s.collection_task
    live_loop_tasks :=
      match s.collection_task with
      | some id => s.live_loop_tasks.erase id
      | none => s.live_loop_tasks
    next_task_id := s.next_task_id }

end CloudHack

namespace CloudHack

/-- The head of a filtered list is the first element satisfying the
predicate: connects the `critical_findings[0]` pattern of
`_determine_root_cause` with `List.find?`. -/
theorem filter_head_eq_find (p : Finding → Bool) (l : List Finding) :
    (l.filter p).head? = l.find? p := by
  induction l with
  | nil => rfl
  | cons a t ih =>
    by_cases h : p a
    · simp [List.filter_cons, List.find?_cons, h]
    · simp [List.filter_cons, List.find?_cons, h, ih]

/-- `_determine_root_cause` on a non-empty list, phrased with `List.find?`:
the first critical finding wins, else the first high finding, else the
head of the list. -/
theorem determine_root_cause_cons (f0 : Finding) (rest : List Finding) :
    determine_root_cause (f0 :: rest) =
      match (f0 :: rest).find? (fun f => f.severity == Severity.critical) with
      | some c => ⟨c.description, 9/10, Severity.critical⟩
      | none =>
        match (f0 :: rest).find? (fun f => f.severity == Severity.high) with
        | some h => ⟨h.description, 7/10, Severity.high⟩
        | none => ⟨f0.description, 1/2, Severity.medium⟩ := by
  cases hcf : (f0 :: rest).filter (fun f => f.severity == Severity.critical) with
  | cons c cs =>
    have hc : (f0 :: rest).find? (fun f => f.severity == Severity.critical)
        = some c := by
      rw [← filter_head_eq_find, hcf]; rfl
    rw [hc]
    simp only [determine_root_cause, hcf]
  | nil =>
    have hc : (f0 :: rest).find? (fun f => f.severity == Severity.critical)
        = none := by
      rw [← filter_head_eq_find, hcf]; rfl
    rw [hc]
    cases hhf : (f0 :: rest).filter (fun f => f.severity == Severity.high) with
    | cons h hs =>
      have hh : (f0 :: rest).find? (fun f => f.severity == Severity.high)
          = some h := by
        rw [← filter_head_eq_find, hhf]; rfl
      rw [hh]
      simp only [determine_root_cause, hcf, hhf]
    | nil =>
      have hh : (f0 :: rest).find? (fun f => f.severity == Severity.high)
          = none := by
        rw [← filter_head_eq_find, hhf]; rfl
      rw [hh]
      simp only [determine_root_cause, hcf, hhf]

/-- C1: root-cause ranking is as specified: the empty findings list gives
root cause "No issues detected" with confidence 1.0 and severity info; a
list with a critical finding gives the description of the first critical
finding (merge order) with confidence 0.9 and severity critical; otherwise
a list with a high finding gives the first high finding's description with
confidence 0.7 and severity high; otherwise the very first finding's
description with confidence 0.5 and severity medium.  (Determinism is
immediate: `determine_root_cause` is a pure function of the list.) -/
theorem C1_root_cause_ranking (findings : List Finding) :
    (findings = [] →
      determine_root_cause findings = ⟨"No issues detected", 1, Severity.info⟩)
    ∧ (∀ c, findings.find? (fun f => f.severity == Severity.critical) = some c →
      determine_root_cause findings = ⟨c.description, 9/10, Severity.critical⟩)
    ∧ (findings.find? (fun f => f.severity == Severity.critical) = none →
      ∀ h, findings.find? (fun f => f.severity == Severity.high) = some h →
      determine_root_cause findings = ⟨h.description, 7/10, Severity.high⟩)
    ∧ (∀ f0 rest, findings = f0 :: rest →
      findings.find? (fun f => f.severity == Severity.critical) = none →
      findings.find? (fun f => f.severity == Severity.high) = none →
      determine_root_cause findings = ⟨f0.description, 1/2, Severity.medium⟩) := by
  refine ⟨?_, ?_, ?_, ?_⟩
  · rintro rfl; rfl
  · intro c hc
    cases findings with
    | nil => simp at hc
    | cons f0 rest => rw [determine_root_cause_cons, hc]
  · intro hc h hh
    cases findings with
    | nil => simp at hh
    | cons f0 rest => rw [determine_root_cause_cons, hc, hh]
  · intro f0 rest hf hc hh
    subst hf
    rw [determine_root_cause_cons, hc, hh]

/-- A sample high-severity finding used to exercise the ranking tie-break. -/
def findingB : Finding :=
  ⟨"pod_crash_loop", Severity.high, "pod/default/b", "B description",
   ["Check pod logs for application errors"]⟩

/-- A second sample high-severity finding. -/
def findingA : Finding :=
  ⟨"high_error_rate", Severity.high, "service/a", "A description",
   ["Investigate failing requests"]⟩

/-- Witness for C1 at the tie-break input [B, A] (both high): the first
high finding B wins with confidence 0.7 and severity high. -/
theorem C1_root_cause_ranking_witness :
    determine_root_cause [findingB, findingA] =
      ⟨"B description", 7/10, Severity.high⟩ :=
  (C1_root_cause_ranking [findingB, findingA]).2.2.1 (by decide) findingB
    (by decide)

end CloudHack

namespace CloudHack

/-- C2: for every invocation of the analyzer, every analysis step is
recorded with status "completed", and when the underlying source of any one
of the four adapters raises, that adapter's contribution is the empty
findings list while the findings of the other three adapters are still all
included (in merge order).  Totality of `analyze_incident` embeds "the call
is never an error merely because some upstream was unreachable". -/
theorem C2_adapter_fault_tolerance (symp : String) (now : ℤ)
    (rs : AdapterOutcomes) :
    ((analyze_incident symp now rs).analysis_steps.map
        (fun s => (s.step, s.status)) =
      [("kubernetes_analysis", "completed"), ("metrics_analysis", "completed"),
       ("logs_analysis", "completed"), ("traces_analysis", "completed")])
    ∧ (∀ e, rs.kubernetes_state = Except.error e →
        (analyze_incident symp now rs).findings =
          degrade rs.metrics ++ degrade rs.logs ++ degrade rs.traces ∧
        (analyze_incident symp now rs).analysis_steps[0]? =
          some ⟨"kubernetes_analysis", "completed", []⟩)
    ∧ (∀ e, rs.metrics = Except.error e →
        (analyze_incident symp now rs).findings =
          degrade rs.kubernetes_state ++ degrade rs.logs ++ degrade rs.traces ∧
        (analyze_incident symp now rs).analysis_steps[1]? =
          some ⟨"metrics_analysis", "completed", []⟩)
    ∧ (∀ e, rs.logs = Except.error e →
        (analyze_incident symp now rs).findings =
          degrade rs.kubernetes_state ++ degrade rs.metrics ++ degrade rs.traces ∧
        (analyze_incident symp now rs).analysis_steps[2]? =
          some ⟨"logs_analysis", "completed", []⟩)
    ∧ (∀ e, rs.traces = Except.error e →
        (analyze_incident symp now rs).findings =
          degrade rs.kubernetes_state ++ degrade rs.metrics ++ degrade rs.logs ∧
        (analyze_incident symp now rs).analysis_steps[3]? =
          some ⟨"traces_analysis", "completed", []⟩) := by
  refine ⟨rfl, ?_, ?_, ?_, ?_⟩ <;> intro e he <;>
    simp [analyze_incident, degrade, he]

/-- A sample critical finding of the cluster-state adapter. -/
def findingCrit : Finding :=
  ⟨"node_not_ready", Severity.critical, "node/n1", "Node n1 is not ready",
   ["Check node resources and kubelet status", "Verify network connectivity"]⟩

/-- Adapter outcomes where the trace source raises and the other three
sources answer. -/
def outcomesTraceFail : AdapterOutcomes :=
  ⟨Except.ok [findingCrit], Except.ok [findingA], Except.ok [],
   Except.error "jaeger unreachable"⟩

/-- Witness for C2: with the trace source raising, the diagnosis still
carries the findings of the other three adapters and records the traces
step as completed with no findings. -/
theorem C2_adapter_fault_tolerance_witness :
    (analyze_incident "pods failing" 0 outcomesTraceFail).findings =
      [findingCrit, findingA] ∧
    (analyze_incident "pods failing" 0 outcomesTraceFail).analysis_steps[3]? =
      some ⟨"traces_analysis", "completed", []⟩ := by
  have h :=
    ((C2_adapter_fault_tolerance "pods failing" 0 outcomesTraceFail).2.2.2.2)
      "jaeger unreachable" rfl
  exact ⟨by simpa [outcomesTraceFail, degrade] using h.1, h.2⟩

end CloudHack

namespace CloudHack

/-- The first fixed opening step of every generated action plan. -/
def acknowledge_step : PlanStep :=
  ⟨1, "Acknowledge the incident and assess impact", 5, true, none⟩

/-- The second fixed opening step of every generated action plan. -/
def gather_step : PlanStep :=
  ⟨2, "Gather additional context and metrics", 10, true, none⟩

/-- The fixed closing step of every generated action plan, numbered after
the `n` finding-derived steps. -/
def verify_step (n : Nat) : PlanStep :=
  ⟨3 + n, "Verify resolution and monitor system stability", 10, true, none⟩

/-- C4: the generated action plan is the two fixed critical opening steps
(5 and 10 minutes), then for each of the first 3 findings in merge order up
to the first 2 of its suggested actions as non-critical 15-minute steps
tagged with the finding's type, then the fixed critical closing step
(10 minutes); the estimated total duration is the sum of all included step
durations (= 25 + 15 per finding-derived step) and the critical steps are
the critical subsequence in original order (= the three fixed steps). -/
theorem C4_action_plan (rc : String) (findings : List Finding) :
    (generate_action_plan rc findings).steps =
      [acknowledge_step, gather_step] ++
        (plan_action_items findings).enum.map
          (fun ia => ⟨3 + ia.1, ia.2.1, 15, false, some ia.2.2⟩) ++
        [verify_step (plan_action_items findings).length]
    ∧ (generate_action_plan rc findings).total_steps =
        3 + (plan_action_items findings).length
    ∧ (generate_action_plan rc findings).estimated_total_duration =
        ((generate_action_plan rc findings).steps.map
          (fun s => s.estimated_duration)).sum
    ∧ (generate_action_plan rc findings).estimated_total_duration =
        25 + 15 * (plan_action_items findings).length
    ∧ (generate_action_plan rc findings).critical_steps =
        (generate_action_plan rc findings).steps.filter (fun s => s.critical)
    ∧ (generate_action_plan rc findings).critical_steps =
        [acknowledge_step, gather_step,
         verify_step (plan_action_items findings).length] := by
  have hmidlen :
      ((plan_action_items findings).enum.map
        (fun ia => (⟨3 + ia.1, ia.2.1, 15, false, some ia.2.2⟩ : PlanStep))).length
      = (plan_action_items findings).length := by
    simp
  have hmiddur :
      (((plan_action_items findings).enum.map
        (fun ia => (⟨3 + ia.1, ia.2.1, 15, false, some ia.2.2⟩ : PlanStep))).map
          (fun s => s.estimated_duration))
      = List.replicate (plan_action_items findings).length 15 := by
    rw [List.map_map]
    have : ((fun s : PlanStep => s.estimated_duration) ∘
        (fun ia : Nat × (String × String) =>
          (⟨3 + ia.1, ia.2.1, 15, false, some ia.2.2⟩ : PlanStep)))
        = fun _ => 15 := rfl
    rw [this, List.map_const', List.enum_length]
  have hmidcrit :
      ((plan_action_items findings).enum.map
        (fun ia => (⟨3 + ia.1, ia.2.1, 15, false, some ia.2.2⟩ : PlanStep))).filter
          (fun s => s.critical) = [] := by
    rw [List.filter_eq_nil_iff]
    intro a ha
    rcases List.mem_map.mp ha with ⟨ia, _, rfl⟩
    simp
  refine ⟨?_, ?_, rfl, ?_, rfl, ?_⟩
  · simp only [generate_action_plan, verify_step, acknowledge_step, gather_step,
      hmidlen]
    simp [Nat.add_comm]
    omega
  · simp only [generate_action_plan, List.length_append, hmidlen]
    simp; omega
  · simp only [generate_action_plan, List.map_append, List.sum_append, hmiddur,
      List.sum_replicate, smul_eq_mul]
    simp; omega
  · simp only [generate_action_plan, List.filter_append, hmidcrit,
      acknowledge_step, gather_step, verify_step, hmidlen]
    simp [Nat.add_comm]
    omega

end CloudHack

namespace CloudHack

/-- One anomaly-log update keeps at most 100 entries (exactly
`min (old + new) 100`) and the result is a suffix of the extended log:
eviction drops only the oldest entries, in order. -/
theorem append_anomalies_spec (log new : List Anomaly) :
    (append_anomalies log new).length = min (log.length + new.length) 100
    ∧ append_anomalies log new <:+ log ++ new := by
  unfold append_anomalies
  by_cases h : (log ++ new).length > 100
  · rw [if_pos h]
    constructor
    · rw [List.length_drop]
      rw [List.length_append] at h ⊢
      omega
    · exact List.drop_suffix _ _
  · rw [if_neg h]
    constructor
    · rw [List.length_append] at h ⊢
      omega
    · exact List.suffix_refl _

/-- C5: after every sampling tick, the anomaly log holds at most 100
entries (exactly `min (old + new) 100`), and eviction removes strictly the
oldest entries first-in-first-out: the retained log is a suffix of the old
log extended by the tick's anomalies, so the relative order of retained
entries is preserved. -/
theorem C5_anomaly_log_bound (st : CollectorData) (now : ℤ) (inp : TickInput) :
    (collect_all_metrics st now inp).anomalies.length ≤ 100
    ∧ (collect_all_metrics st now inp).anomalies <:+
        st.anomalies ++ detect_anomalies inp.cluster inp.nodes now
    ∧ (collect_all_metrics st now inp).anomalies.length =
        min (st.anomalies.length +
          (detect_anomalies inp.cluster inp.nodes now).length) 100 := by
  have h := append_anomalies_spec st.anomalies
    (detect_anomalies inp.cluster inp.nodes now)
  exact ⟨by rw [collect_all_metrics] at *; exact h.1 ▸ Nat.min_le_right _ _,
    h.2, h.1⟩

/-- After one tick at time `now`, the three stored sections all carry
timestamp `now` (the tick writes them fresh and the subsequent cleanup
keeps them, since `now` is within the 360-minute horizon of itself). -/
theorem collect_all_metrics_timestamps (st : CollectorData) (now : ℤ)
    (inp : TickInput) :
    (collect_all_metrics st now inp).collected_metrics.timestamps =
      [now, now, now] := by
  have h : ¬ (now < now - 360) := by omega
  simp [collect_all_metrics, clean_old_metrics, keep_fresh,
    CollectedMetrics.timestamps, h]

/-- C6: after any sequence of sampling ticks ending with a tick at time
`now`, every entry retained in the collected-metrics store has timestamp at
least `now - 360` minutes (6 hours), and the store holds at most 3 entries,
so it never grows without bound. -/
theorem C6_rolling_window (st : CollectorData) (prev : List (ℤ × TickInput))
    (now : ℤ) (inp : TickInput) :
    (∀ ts ∈ ((prev ++ [(now, inp)]).foldl tick st).collected_metrics.timestamps,
      now - 360 ≤ ts)
    ∧ ((prev ++ [(now, inp)]).foldl tick st).collected_metrics.timestamps.length
        ≤ 3 := by
  rw [List.foldl_append, List.foldl_cons, List.foldl_nil]
  rw [show tick (prev.foldl tick st) (now, inp) =
    collect_all_metrics (prev.foldl tick st) now inp from rfl]
  rw [collect_all_metrics_timestamps]
  constructor
  · intro ts hts
    simp at hts
    omega
  · simp

/-- An idle tick input: every upstream query degraded, so the measured
sections are empty. -/
def tickInput0 : TickInput := ⟨ClusterMetrics.empty, [], []⟩

/-- Witness for C6 at a single tick at time 0 from the fresh collector:
timestamp 0 is retained and satisfies the horizon bound, and the store has
at most 3 entries. -/
theorem C6_rolling_window_witness :
    (0:ℤ) - 360 ≤ 0
    ∧ (([] ++ [((0:ℤ), tickInput0)]).foldl tick
        CollectorData.init).collected_metrics.timestamps.length ≤ 3 :=
  ⟨(C6_rolling_window CollectorData.init [] 0 tickInput0).1 0 (by decide),
   (C6_rolling_window CollectorData.init [] 0 tickInput0).2⟩

end CloudHack

namespace CloudHack

/-- Node names are recoverable from the `node/<name>` resource strings of
node-level anomalies. -/
theorem node_resource_inj {a b : String} (h : "node/" ++ a = "node/" ++ b) :
    a = b := by
  have hd := congrArg String.data h
  rw [String.data_append, String.data_append] at hd
  have h2 := List.append_cancel_left hd
  cases a; cases b
  exact congrArg String.mk h2

/-- Membership in the anomalies of one node entry: exactly the cpu breach
record and the memory breach record, under their thresholds. -/
theorem mem_node_anomalies {a : Anomaly} {t : ℤ} {q : String × NodeMetrics} :
    a ∈ node_anomalies t q ↔
      (a = node_cpu_anomaly q t ∧ q.2.cpu_usage_percent.getD 0 > 90) ∨
      (a = node_memory_anomaly q t ∧ q.2.memory_usage_percent.getD 0 > 95) := by
  unfold node_anomalies
  by_cases h1 : q.2.cpu_usage_percent.getD 0 > 90 <;>
    by_cases h2 : q.2.memory_usage_percent.getD 0 > 95 <;>
      simp [h1, h2]

/-- A conditional singleton of a different record contributes count 0. -/
theorem count_ite_singleton_ne {x y : Anomaly} (cond : Prop) [Decidable cond]
    (hne : x ≠ y) : (if cond then [y] else []).count x = 0 := by
  split
  · rw [List.count_eq_zero, List.mem_singleton]
    exact hne
  · rfl

/-- Two anomaly records with different `type` strings are different. -/
theorem ne_type {x y : Anomaly} (h : x.type = y.type → False) : x ≠ y :=
  fun he => h (congrArg Anomaly.type he)

/-- Within its own node entry, the cpu-breach record occurs once iff the
cpu threshold is crossed. -/
theorem count_node_cpu_self (p : String × NodeMetrics) (t : ℤ) :
    (node_anomalies t p).count (node_cpu_anomaly p t) =
      if p.2.cpu_usage_percent.getD 0 > 90 then 1 else 0 := by
  have hne : node_cpu_anomaly p t ≠ node_memory_anomaly p t :=
    ne_type (show ("high_node_cpu" : String) = "high_node_memory" → False by
      decide)
  unfold node_anomalies
  rw [List.count_append, count_ite_singleton_ne _ hne]
  by_cases hc : p.2.cpu_usage_percent.getD 0 > 90 <;> simp [hc]

/-- Within its own node entry, the memory-breach record occurs once iff the
memory threshold is crossed. -/
theorem count_node_memory_self (p : String × NodeMetrics) (t : ℤ) :
    (node_anomalies t p).count (node_memory_anomaly p t) =
      if p.2.memory_usage_percent.getD 0 > 95 then 1 else 0 := by
  have hne : node_memory_anomaly p t ≠ node_cpu_anomaly p t :=
    ne_type (show ("high_node_memory" : String) = "high_node_cpu" → False by
      decide)
  unfold node_anomalies
  rw [List.count_append, count_ite_singleton_ne _ hne, Nat.zero_add]
  by_cases hc : p.2.memory_usage_percent.getD 0 > 95 <;> simp [hc]

/-- A different node's entry never contributes the cpu-breach record of
node `p`. -/
theorem count_node_cpu_ne (q p : String × NodeMetrics) (t : ℤ)
    (h : q.1 ≠ p.1) :
    (node_anomalies t q).count (node_cpu_anomaly p t) = 0 := by
  rw [List.count_eq_zero]
  intro hmem
  rcases mem_node_anomalies.mp hmem with ⟨he, _⟩ | ⟨he, _⟩
  · exact h (node_resource_inj
      (Option.some.inj (congrArg Anomaly.resource he))).symm
  · exact ne_type
      (show ("high_node_cpu" : String) = "high_node_memory" → False by decide)
      he

/-- A different node's entry never contributes the memory-breach record of
node `p`. -/
theorem count_node_memory_ne (q p : String × NodeMetrics) (t : ℤ)
    (h : q.1 ≠ p.1) :
    (node_anomalies t q).count (node_memory_anomaly p t) = 0 := by
  rw [List.count_eq_zero]
  intro hmem
  rcases mem_node_anomalies.mp hmem with ⟨he, _⟩ | ⟨he, _⟩
  · exact ne_type
      (show ("high_node_memory" : String) = "high_node_cpu" → False by decide)
      he
  · exact h (node_resource_inj
      (Option.some.inj (congrArg Anomaly.resource he))).symm

/-- When no entry carries node `p`'s name, the node part holds no
cpu-breach record for `p`. -/
theorem count_node_cpu_flatMap_zero (tl : List (String × NodeMetrics))
    (p : String × NodeMetrics) (t : ℤ) (h : ∀ q ∈ tl, q.1 ≠ p.1) :
    (tl.flatMap (node_anomalies t)).count (node_cpu_anomaly p t) = 0 := by
  induction tl with
  | nil => rfl
  | cons q tl2 ih =>
    rw [List.flatMap_cons, List.count_append,
      count_node_cpu_ne q p t (h q (List.mem_cons_self q tl2)),
      ih (fun r hr => h r (List.mem_cons_of_mem q hr))]

/-- When no entry carries node `p`'s name, the node part holds no
memory-breach record for `p`. -/
theorem count_node_memory_flatMap_zero (tl : List (String × NodeMetrics))
    (p : String × NodeMetrics) (t : ℤ) (h : ∀ q ∈ tl, q.1 ≠ p.1) :
    (tl.flatMap (node_anomalies t)).count (node_memory_anomaly p t) = 0 := by
  induction tl with
  | nil => rfl
  | cons q tl2 ih =>
    rw [List.flatMap_cons, List.count_append,
      count_node_memory_ne q p t (h q (List.mem_cons_self q tl2)),
      ih (fun r hr => h r (List.mem_cons_of_mem q hr))]

/-- With the node names distinct (they are Python dict keys), the node part
holds node `p`'s cpu-breach record exactly once iff `p` crosses the cpu
threshold. -/
theorem count_node_cpu_flatMap (ns : List (String × NodeMetrics))
    (p : String × NodeMetrics) (t : ℤ) (hkeys : (ns.map Prod.fst).Nodup)
    (hp : p ∈ ns) :
    (ns.flatMap (node_anomalies t)).count (node_cpu_anomaly p t) =
      if p.2.cpu_usage_percent.getD 0 > 90 then 1 else 0 := by
  induction ns with
  | nil => cases hp
  | cons q tl ih =>
    rw [List.flatMap_cons, List.count_append]
    rw [List.map_cons, List.nodup_cons] at hkeys
    rcases List.mem_cons.mp hp with rfl | hptl
    · rw [count_node_cpu_self,
        count_node_cpu_flatMap_zero tl p t
          (fun r hr he => hkeys.1 (he ▸ List.mem_map_of_mem Prod.fst hr))]
      exact Nat.add_zero _
    · have hq : q.1 ≠ p.1 := fun he =>
        hkeys.1 (he ▸ List.mem_map_of_mem Prod.fst hptl)
      rw [count_node_cpu_ne q p t hq, ih hkeys.2 hptl, Nat.zero_add]

/-- With the node names distinct, the node part holds node `p`'s
memory-breach record exactly once iff `p` crosses the memory threshold. -/
theorem count_node_memory_flatMap (ns : List (String × NodeMetrics))
    (p : String × NodeMetrics) (t : ℤ) (hkeys : (ns.map Prod.fst).Nodup)
    (hp : p ∈ ns) :
    (ns.flatMap (node_anomalies t)).count (node_memory_anomaly p t) =
      if p.2.memory_usage_percent.getD 0 > 95 then 1 else 0 := by
  induction ns with
  | nil => cases hp
  | cons q tl ih =>
    rw [List.flatMap_cons, List.count_append]
    rw [List.map_cons, List.nodup_cons] at hkeys
    rcases List.mem_cons.mp hp with rfl | hptl
    · rw [count_node_memory_self,
        count_node_memory_flatMap_zero tl p t
          (fun r hr he => hkeys.1 (he ▸ List.mem_map_of_mem Prod.fst hr))]
      exact Nat.add_zero _
    · have hq : q.1 ≠ p.1 := fun he =>
        hkeys.1 (he ▸ List.mem_map_of_mem Prod.fst hptl)
      rw [count_node_memory_ne q p t hq, ih hkeys.2 hptl, Nat.zero_add]

/-- The node part never holds a cluster-cpu record. -/
theorem count_cluster_cpu_flatMap_zero (ns : List (String × NodeMetrics))
    (c : ClusterMetrics) (t : ℤ) :
    (ns.flatMap (node_anomalies t)).count (cluster_cpu_anomaly c t) = 0 := by
  rw [List.count_eq_zero]
  intro hmem
  rcases List.mem_flatMap.mp hmem with ⟨q, _, hmem2⟩
  rcases mem_node_anomalies.mp hmem2 with ⟨he, _⟩ | ⟨he, _⟩
  · exact ne_type
      (show ("high_cluster_cpu" : String) = "high_node_cpu" → False by decide)
      he
  · exact ne_type
      (show ("high_cluster_cpu" : String) = "high_node_memory" → False by
        decide)
      he

/-- The node part never holds a cluster-memory record. -/
theorem count_cluster_memory_flatMap_zero (ns : List (String × NodeMetrics))
    (c : ClusterMetrics) (t : ℤ) :
    (ns.flatMap (node_anomalies t)).count (cluster_memory_anomaly c t) = 0 := by
  rw [List.count_eq_zero]
  intro hmem
  rcases List.mem_flatMap.mp hmem with ⟨q, _, hmem2⟩
  rcases mem_node_anomalies.mp hmem2 with ⟨he, _⟩ | ⟨he, _⟩
  · exact ne_type
      (show ("high_cluster_memory" : String) = "high_node_cpu" → False by
        decide)
      he
  · exact ne_type
      (show ("high_cluster_memory" : String) = "high_node_memory" → False by
        decide)
      he

/-- The classifier emits the cluster-cpu anomaly exactly once iff cluster
cpu% exceeds 80. -/
theorem count_cluster_cpu_detect (c : ClusterMetrics)
    (ns : List (String × NodeMetrics)) (t : ℤ) :
    (detect_anomalies c ns t).count (cluster_cpu_anomaly c t) =
      if c.cpu_usage_percent.getD 0 > 80 then 1 else 0 := by
  have hne : cluster_cpu_anomaly c t ≠ cluster_memory_anomaly c t :=
    ne_type
      (show ("high_cluster_cpu" : String) = "high_cluster_memory" → False by
        decide)
  unfold detect_anomalies
  rw [List.count_append, List.count_append, count_cluster_cpu_flatMap_zero,
    count_ite_singleton_ne _ hne]
  by_cases hc : c.cpu_usage_percent.getD 0 > 80 <;> simp [hc]

/-- The classifier emits the cluster-memory anomaly exactly once iff
cluster memory% exceeds 85. -/
theorem count_cluster_memory_detect (c : ClusterMetrics)
    (ns : List (String × NodeMetrics)) (t : ℤ) :
    (detect_anomalies c ns t).count (cluster_memory_anomaly c t) =
      if c.memory_usage_percent.getD 0 > 85 then 1 else 0 := by
  have hne : cluster_memory_anomaly c t ≠ cluster_cpu_anomaly c t :=
    ne_type
      (show ("high_cluster_memory" : String) = "high_cluster_cpu" → False by
        decide)
  unfold detect_anomalies
  rw [List.count_append, List.count_append, count_cluster_memory_flatMap_zero,
    count_ite_singleton_ne _ hne, Nat.zero_add]
  by_cases hc : c.memory_usage_percent.getD 0 > 85 <;> simp [hc]

/-- Every anomaly the classifier emits is one of the four fixed breach
records, each under its own threshold condition. -/
theorem mem_detect_anomalies {a : Anomaly} {c : ClusterMetrics}
    {ns : List (String × NodeMetrics)} {t : ℤ} :
    a ∈ detect_anomalies c ns t ↔
      (a = cluster_cpu_anomaly c t ∧ c.cpu_usage_percent.getD 0 > 80) ∨
      (a = cluster_memory_anomaly c t ∧ c.memory_usage_percent.getD 0 > 85) ∨
      (∃ p ∈ ns, a = node_cpu_anomaly p t ∧
        p.2.cpu_usage_percent.getD 0 > 90) ∨
      (∃ p ∈ ns, a = node_memory_anomaly p t ∧
        p.2.memory_usage_percent.getD 0 > 95) := by
  unfold detect_anomalies
  by_cases h1 : c.cpu_usage_percent.getD 0 > 80 <;>
    by_cases h2 : c.memory_usage_percent.getD 0 > 85 <;>
      simp [h1, h2, List.mem_flatMap, mem_node_anomalies, and_or_left,
        exists_or]

end CloudHack

namespace CloudHack

/-- In the full classifier output, node `p`'s cpu-breach record occurs
exactly once iff `p` crosses the cpu threshold (node names distinct). -/
theorem count_node_cpu_detect (c : ClusterMetrics)
    (ns : List (String × NodeMetrics)) (t : ℤ)
    (hkeys : (ns.map Prod.fst).Nodup) (p : String × NodeMetrics)
    (hp : p ∈ ns) :
    (detect_anomalies c ns t).count (node_cpu_anomaly p t) =
      if p.2.cpu_usage_percent.getD 0 > 90 then 1 else 0 := by
  have hne1 : node_cpu_anomaly p t ≠ cluster_cpu_anomaly c t :=
    ne_type (show ("high_node_cpu" : String) = "high_cluster_cpu" → False by
      decide)
  have hne2 : node_cpu_anomaly p t ≠ cluster_memory_anomaly c t :=
    ne_type (show ("high_node_cpu" : String) = "high_cluster_memory" → False by
      decide)
  unfold detect_anomalies
  rw [List.count_append, List.count_append, count_ite_singleton_ne _ hne1,
    count_ite_singleton_ne _ hne2, count_node_cpu_flatMap ns p t hkeys hp]
  simp

/-- In the full classifier output, node `p`'s memory-breach record occurs
exactly once iff `p` crosses the memory threshold (node names distinct). -/
theorem count_node_memory_detect (c : ClusterMetrics)
    (ns : List (String × NodeMetrics)) (t : ℤ)
    (hkeys : (ns.map Prod.fst).Nodup) (p : String × NodeMetrics)
    (hp : p ∈ ns) :
    (detect_anomalies c ns t).count (node_memory_anomaly p t) =
      if p.2.memory_usage_percent.getD 0 > 95 then 1 else 0 := by
  have hne1 : node_memory_anomaly p t ≠ cluster_cpu_anomaly c t :=
    ne_type (show ("high_node_memory" : String) = "high_cluster_cpu" → False by
      decide)
  have hne2 : node_memory_anomaly p t ≠ cluster_memory_anomaly c t :=
    ne_type
      (show ("high_node_memory" : String) = "high_cluster_memory" → False by
        decide)
  unfold detect_anomalies
  rw [List.count_append, List.count_append, count_ite_singleton_ne _ hne1,
    count_ite_singleton_ne _ hne2, count_node_memory_flatMap ns p t hkeys hp]
  simp

/-- C3: anomaly classification emits exactly one Anomaly per threshold
breach with the fixed (condition, type, severity, threshold) tuples —
cluster cpu% > 80 gives high_cluster_cpu/high/80, cluster memory% > 85
gives high_cluster_memory/high/85, node cpu% > 90 gives
high_node_cpu/critical/90, node memory% > 95 gives
high_node_memory/critical/95 — each record carrying the observed value and
the crossed threshold; every emitted anomaly is one of these breach
records.  The classifier is a pure function of the sample (the timestamp
`t` is arbitrary), so a value above threshold at every tick produces an
anomaly at every tick: there is no hysteresis. -/
theorem C3_anomaly_classification (c : ClusterMetrics)
    (ns : List (String × NodeMetrics)) (t : ℤ)
    (hkeys : (ns.map Prod.fst).Nodup) :
    (∀ a ∈ detect_anomalies c ns t,
      (a = cluster_cpu_anomaly c t ∧ c.cpu_usage_percent.getD 0 > 80) ∨
      (a = cluster_memory_anomaly c t ∧ c.memory_usage_percent.getD 0 > 85) ∨
      (∃ p ∈ ns, a = node_cpu_anomaly p t ∧
        p.2.cpu_usage_percent.getD 0 > 90) ∨
      (∃ p ∈ ns, a = node_memory_anomaly p t ∧
        p.2.memory_usage_percent.getD 0 > 95))
    ∧ (detect_anomalies c ns t).count (cluster_cpu_anomaly c t) =
        (if c.cpu_usage_percent.getD 0 > 80 then 1 else 0)
    ∧ (detect_anomalies c ns t).count (cluster_memory_anomaly c t) =
        (if c.memory_usage_percent.getD 0 > 85 then 1 else 0)
    ∧ (∀ p ∈ ns, (detect_anomalies c ns t).count (node_cpu_anomaly p t) =
        (if p.2.cpu_usage_percent.getD 0 > 90 then 1 else 0))
    ∧ (∀ p ∈ ns, (detect_anomalies c ns t).count (node_memory_anomaly p t) =
        (if p.2.memory_usage_percent.getD 0 > 95 then 1 else 0)) :=
  ⟨fun _ ha => mem_detect_anomalies.mp ha,
   count_cluster_cpu_detect c ns t,
   count_cluster_memory_detect c ns t,
   fun p hp => count_node_cpu_detect c ns t hkeys p hp,
   fun p hp => count_node_memory_detect c ns t hkeys p hp⟩

/-- A sample cluster measurement with cpu 85%, memory 70%, 3 of 3 nodes
ready. -/
def clusterSample : ClusterMetrics := ⟨some 85, some 70, some 12, some 3, some 3⟩

/-- A sample node entry with cpu 95% (breach) and memory 50% (no breach). -/
def nodeSample : String × NodeMetrics := ("node1", ⟨some 95, some 50, some 10⟩)

/-- Witness for C3 at a concrete sample: cluster cpu 85 > 80 emits its
anomaly once, node cpu 95 > 90 emits its anomaly once, node memory
50 ≤ 95 emits nothing. -/
theorem C3_anomaly_classification_witness :
    (detect_anomalies clusterSample [nodeSample] 7).count
        (cluster_cpu_anomaly clusterSample 7) = 1
    ∧ (detect_anomalies clusterSample [nodeSample] 7).count
        (node_cpu_anomaly nodeSample 7) = 1
    ∧ (detect_anomalies clusterSample [nodeSample] 7).count
        (node_memory_anomaly nodeSample 7) = 0 := by
  have h := C3_anomaly_classification clusterSample [nodeSample] 7 (by decide)
  refine ⟨?_, ?_, ?_⟩
  · rw [h.2.1]
    norm_num [clusterSample, Option.getD_some]
  · rw [h.2.2.2.1 nodeSample (List.mem_singleton.mpr rfl)]
    norm_num [nodeSample, Option.getD_some]
  · rw [h.2.2.2.2 nodeSample (List.mem_singleton.mpr rfl)]
    norm_num [nodeSample, Option.getD_some]

end CloudHack

namespace CloudHack

/-- Collector data for the health-score scenario: cluster cpu 85%, memory 70%,
ready_nodes 3 of total_nodes 3, stored at time 0. -/
def scenarioData : CollectorData :=
  ⟨⟨some ⟨0, clusterSample⟩, some ⟨0, [nodeSample]⟩, some ⟨0, []⟩⟩, []⟩

/-- C7: the health score is computed deterministically as 100 minus 20 for
cluster cpu% > 80, minus 20 for cluster memory% > 85, minus 30 for
ready_nodes < total_nodes, clamped to [0, 100]; in the scenario cpu 85,
memory 70, 3 of 3 nodes ready, the score is 80. -/
theorem C7_health_score (st : CollectorData) (now : ℤ) :
    (get_metrics_summary st now).cluster_health_score =
      max 0 (100
        - (if ((st.collected_metrics.cluster.map
            (fun e => e.metrics)).getD ClusterMetrics.empty).cpu_usage_percent.getD
              0 > 80 then 20 else 0)
        - (if ((st.collected_metrics.cluster.map
            (fun e => e.metrics)).getD
              ClusterMetrics.empty).memory_usage_percent.getD 0 > 85
           then 20 else 0)
        - (if ((st.collected_metrics.cluster.map
            (fun e => e.metrics)).getD ClusterMetrics.empty).ready_nodes.getD 0
              < ((st.collected_metrics.cluster.map
                (fun e => e.metrics)).getD ClusterMetrics.empty).total_nodes.getD
                  1 then 30 else 0))
    ∧ 0 ≤ (get_metrics_summary st now).cluster_health_score
    ∧ (get_metrics_summary st now).cluster_health_score ≤ 100
    ∧ (get_metrics_summary scenarioData 0).cluster_health_score = 80 := by
  refine ⟨?_, ?_, ?_, ?_⟩
  · simp only [get_metrics_summary]
    split_ifs <;> norm_num
  · exact le_max_left 0 _
  · simp only [get_metrics_summary]
    split_ifs <;> norm_num
  · norm_num [get_metrics_summary, scenarioData, clusterSample,
      Option.getD_some]

/-- C8 counterexample: two GetSummary calls with no intervening tick but at
different clock instants differ (the summary embeds the current time in its
`timestamp` field), so they are not identical in every field. -/
theorem C8_counterexample :
    get_metrics_summary CollectorData.init 0 ≠
      get_metrics_summary CollectorData.init 1 := by
  intro h
  exact absurd (congrArg MetricsSummary.timestamp h) (by decide)

/-- C8 (amended): two GetSummary calls with no intervening tick agree on
every clock-independent field — health score, cluster metrics, node count
and pod count — whatever the two observation instants; only the fields
derived from the current clock (timestamp, recent-anomaly count, metrics
age) may differ. -/
theorem C8_summary_idempotent_fields (st : CollectorData) (t₁ t₂ : ℤ) :
    (get_metrics_summary st t₁).cluster_health_score =
      (get_metrics_summary st t₂).cluster_health_score
    ∧ (get_metrics_summary st t₁).cluster_metrics =
      (get_metrics_summary st t₂).cluster_metrics
    ∧ (get_metrics_summary st t₁).node_count =
      (get_metrics_summary st t₂).node_count
    ∧ (get_metrics_summary st t₁).pod_count =
      (get_metrics_summary st t₂).pod_count :=
  ⟨rfl, rfl, rfl, rfl⟩

/-- C9: evaluation of the lifecycle model at the failing input.  Two
successive `start` calls leave two live collection-loop tasks (the first
task is orphaned, not cancelled), not the one loop the claim requires, so
`start` is not idempotent; `stop` after a `start` is idempotent. -/
theorem C9_start_not_idempotent :
    (SamplerLifecycle.init.start.start).live_loop_tasks.length = 2
    ∧ (SamplerLifecycle.init.start).live_loop_tasks.length = 1
    ∧ SamplerLifecycle.init.start.start ≠ SamplerLifecycle.init.start
    ∧ SamplerLifecycle.init.start.stop.stop = SamplerLifecycle.init.start.stop
    := by decide

/-- C10: on a fresh collector with no metrics collected, GetSummary reports
health score 70, not 100: the defaults ready_nodes = 0 and total_nodes = 1
make the ready-node check fire and deduct 30 points. -/
theorem C10_fresh_summary_health_score (now : ℤ) :
    (get_metrics_summary CollectorData.init now).cluster_health_score = 70
    ∧ (get_metrics_summary CollectorData.init now).cluster_health_score ≠ 100
    := by
  refine ⟨?_, ?_⟩ <;>
    norm_num [get_metrics_summary, CollectorData.init, ClusterMetrics.empty]

end CloudHack
